import Mathlib

/-!
# Verification of the `MainRecommender` orchestration layer

A shallow embedding of `src/recommenders.py` (class `MainRecommender`, the
newer variant under `src/src/recommenders.py`; the older variant's
`evalMetrics` is embedded separately as `evalMetricsOld`).

Modelling conventions:
* pandas `DataFrame` rows become Lean lists of structures;
* Python dicts become association lists (`List (Nat × Nat)`), insertion at the
  end, first-match lookup;
* Python calls that can raise (`dict[...]`, `list[...]`, `max([])`,
  `assert`) return `Except String _`, with a distinct message per exception
  class;
* the external `implicit` models (ALS / item-item) are opaque collaborators:
  they are embedded as a record of functions (`Model`) and the theorems take
  their contracts as hypotheses;
* `pandas.sort_values` uses an unstable quicksort whose tie order is
  unspecified; we model it with `List.insertionSort` (a total, stable sort);
  no theorem below depends on the order of tied rows;
* float arithmetic is modelled exactly over `ℚ` (the mean of an empty group,
  `NaN` in pandas, is modelled by `ℚ`'s `x / 0 = 0`; no theorem exercises it).
-/

namespace Rec

/-- One interaction record: a row of the input `data` frame
(`user_id`, `item_id`, `quantity`, `sales_value`). -/
structure Record where
  user_id : Nat
  item_id : Nat
  quantity : Nat
  sales_value : Rat
deriving DecidableEq, Repr

/-- A row of the external score table `df_predict` used by the re-ranking
path (`user_id`-like target column, `item_id`, `proba_item_purchase`). -/
structure ScoreRow where
  user_id : Nat
  item_id : Nat
  proba_item_purchase : Rat
deriving DecidableEq, Repr

/-- Python dict lookup on an association list: first matching key. -/
def dictLookup (m : List (Nat × Nat)) (k : Nat) : Option Nat :=
  (m.find? (fun p => p.1 == k)).map (·.2)

/-- `d[k]` on a Python dict: raises `KeyError` when the key is absent. -/
def pyGet (m : List (Nat × Nat)) (k : Nat) : Except String Nat :=
  match dictLookup m k with
  | some v => Except.ok v
  | none => Except.error "KeyError"

/-- Distinct keys in ascending order, as produced by `pandas.groupby`. -/
def sortedKeys (ks : List Nat) : List Nat :=
  List.insertionSort (· ≤ ·) ks.dedup

/-- `data.groupby('item_id')['quantity'].count()`: one `(item_id, count)` row
per distinct item, keys ascending, the count being the number of records of
that item. -/
def itemCounts (data : List Record) : List (Nat × Nat) :=
  (sortedKeys (data.map (·.item_id))).map
    (fun i => (i, (data.filter (fun r => r.item_id == i)).length))

/-- `self.overall_top_purchases` as computed in `__init__`: item counts sorted
by count descending, rows with `item_id == 999999` dropped, then the item-id
column.  This is the spec's PopularityRanking. -/
def overall_top_purchases (data : List Record) : List Nat :=
  ((List.insertionSort (fun a b : Nat × Nat => b.2 ≤ a.2) (itemCounts data)).filter
    (fun p => p.1 ≠ 999999)).map (·.1)

/-- `data.groupby(['user_id','item_id'])['quantity'].count()`: one
`(user_id, item_id, count)` row per distinct pair, keys in ascending
lexicographic order. -/
def pairCounts (data : List Record) : List (Nat × Nat × Nat) :=
  (List.insertionSort
      (fun a b : Nat × Nat => a.1 < b.1 ∨ (a.1 = b.1 ∧ a.2 ≤ b.2))
      ((data.map (fun r => (r.user_id, r.item_id))).dedup)).map
    (fun p => (p.1, p.2,
      (data.filter (fun r => r.user_id == p.1 && r.item_id == p.2)).length))

/-- `self.top_purchases` as computed in `__init__`: per-(user, item) counts
sorted by count descending, rows with `item_id == 999999` dropped. -/
def top_purchases (data : List Record) : List (Nat × Nat × Nat) :=
  (List.insertionSort (fun a b : Nat × Nat × Nat => b.2.2 ≤ a.2.2)
    (pairCounts data)).filter (fun p => p.2.1 ≠ 999999)

/-- The records of one `(user_id, item_id)` group of the pivot table. -/
def cellRecords (data : List Record) (u i : Nat) : List Record :=
  data.filter (fun r => r.user_id == u && r.item_id == i)

/-- `pandas.pivot_table` cell aggregation with the DEFAULT `aggfunc`, which is
`'mean'`; `fill_value=0` fills the cells whose group is empty. -/
def pivotMean (xs : List Rat) : Rat :=
  if xs = [] then 0 else xs.sum / (xs.length : Rat)

/-- `MainRecommender._prepare_matrix(data, user_item_matrix_values)` as a cell
function.  `'binary'` passes `aggfunc='count'`; `'quantity'` and
`'purchase_sum'` pass no `aggfunc`, so pandas applies its default `'mean'`
to the `quantity` resp. `sales_value` column.  An unrecognized mode leaves
the Python variable `None` (the subsequent `.astype(float)` then raises), so
the embedding returns `none`. -/
def _prepare_matrix (data : List Record) (user_item_matrix_values : String) :
    Option (Nat → Nat → Rat) :=
  if user_item_matrix_values = "binary" then
    some (fun u i => ((cellRecords data u i).length : Rat))
  else if user_item_matrix_values = "quantity" then
    some (fun u i => pivotMean ((cellRecords data u i).map (fun r => (r.quantity : Rat))))
  else if user_item_matrix_values = "purchase_sum" then
    some (fun u i => pivotMean ((cellRecords data u i).map (·.sales_value)))
  else
    none

/-- The cell value C4 claims for `'quantity'` mode: the SUM of the `quantity`
field over the pair's records (written from the spec's words, for comparison
with `_prepare_matrix`). -/
def specQuantityCell (data : List Record) (u i : Nat) : Rat :=
  ((cellRecords data u i).map (fun r => (r.quantity : Rat))).sum

/-- The cell value C4 claims for `'purchase_sum'` mode: the SUM of the
`sales_value` field over the pair's records (from the spec's words). -/
def specPurchaseSumCell (data : List Record) (u i : Nat) : Rat :=
  ((cellRecords data u i).map (·.sales_value)).sum

/-- Modelled from the spec: `src/metrics.py` is imported by both source files
but is absent from the repository sources.  The spec defines
`precision_at_k(rec, actual, k) = |set(rec[:k]) ∩ set(actual)| / k`. -/
def precision_at_k (recommended actual : List Nat) (k : Nat) : Rat :=
  (((recommended.take k).dedup.filter (fun x => actual.contains x)).length : Rat) / (k : Rat)

/-- Modelled from the spec: `src/metrics.py` is absent from the repository
sources.  The spec defines
`recall_at_k(rec, actual, k) = |set(rec[:k]) ∩ set(actual)| / |actual|`,
with recall defined as 0 when `actual` is empty. -/
def recall_at_k (recommended actual : List Nat) (k : Nat) : Rat :=
  if actual = [] then 0
  else (((recommended.take k).dedup.filter (fun x => actual.contains x)).length : Rat) /
    ((actual.dedup.length : Nat) : Rat)

/-- The external `implicit` model behind a uniform contract (the spec's
ModelAdapter).  `recommend matrix userIndex N filterItems` returns ranked
item indices (`filter_already_liked_items=False`, `recalculate_user=False`
are fixed by the call site and folded into the opaque function);
`similar_items itemIndex N` and `similar_users userIndex N` return ranked
indices.  Scores are dropped: the orchestration code only reads `rec[0]`. -/
structure Model where
  recommend : (Nat → Nat → Rat) → Nat → Nat → List Nat → List Nat
  similar_items : Nat → Nat → List Nat
  similar_users : Nat → Nat → List Nat

/-- The state of a constructed `MainRecommender` instance: the four id
dictionaries, the two top-purchase tables, the (weighted) user-item matrix
and the two fitted models. -/
structure Engine where
  userid_to_id : List (Nat × Nat)
  id_to_userid : List (Nat × Nat)
  itemid_to_id : List (Nat × Nat)
  id_to_itemid : List (Nat × Nat)
  top_purchases : List (Nat × Nat × Nat)
  overall_top_purchases : List Nat
  user_item_matrix : Nat → Nat → Rat
  model : Model
  own_recommender : Model

/-- The message of the Python `ValueError` raised by `max([])` in
`_update_dict` when the user dictionary is empty. -/
def valueErrMsg : String := "ValueError: max() arg is an empty sequence"

/-- The message of the `AssertionError` raised by the
`assert len(res) == N` postcondition of the strategies.  (The Python message
interpolates `N`; the constant tag is what the theorems distinguish.) -/
def assertMsg : String := "AssertionError: recommendation count != N"

/-- `MainRecommender._update_dict(user_id)`: when the id is unknown, compute
`max(list(self.userid_to_id.values())) + 1` — raising `ValueError` on an
empty dict — and insert the pair into both direction dicts. -/
def _update_dict (e : Engine) (user_id : Nat) : Except String Engine :=
  if (e.userid_to_id.map (·.1)).contains user_id then
    Except.ok e
  else
    match (e.userid_to_id.map (·.2)).max? with
    | none => Except.error valueErrMsg
    | some max_id =>
      Except.ok { e with
        userid_to_id := e.userid_to_id ++ [(user_id, max_id + 1)],
        id_to_userid := e.id_to_userid ++ [(max_id + 1, user_id)] }

/-- `MainRecommender._extend_with_top_popular(recommendations, N)`: when the
list is shorter than `N`, extend it with the first `N` entries of
`overall_top_purchases` and truncate to `N`; otherwise return it as is. -/
def _extend_with_top_popular (top recommendations : List Nat) (N : Nat) : List Nat :=
  if recommendations.length < N then ((recommendations ++ top.take N).take N)
  else recommendations

/-- The `assert len(res) == N` epilogue shared by the four strategies. -/
def assertLen (res : List Nat) (N : Nat) (e : Engine) :
    Except String (List Nat × Engine) :=
  if res.length = N then Except.ok (res, e) else Except.error assertMsg

/-- Sequential evaluation of a fallible map, as a Python list comprehension
or `Series.apply` evaluates it: the first exception aborts the whole map. -/
def mapExcept (f : α → Except String β) : List α → Except String (List β)
  | [] => Except.ok []
  | a :: as =>
    match f a with
    | Except.error s => Except.error s
    | Except.ok b =>
      match mapExcept f as with
      | Except.error s => Except.error s
      | Except.ok bs => Except.ok (b :: bs)

/-- `MainRecommender._get_recommendations(user, model, N)`: register the user,
query the model with the placeholder item's index excluded
(`filter_items=[self.itemid_to_id[999999]]`), map the returned indices back
to item ids, pad with the popularity fallback and assert the length. -/
def _get_recommendations (e : Engine) (user : Nat) (model : Model) (N : Nat) :
    Except String (List Nat × Engine) :=
  match _update_dict e user with
  | Except.error s => Except.error s
  | Except.ok e1 =>
    match pyGet e1.userid_to_id user with
    | Except.error s => Except.error s
    | Except.ok uid =>
      match pyGet e1.itemid_to_id 999999 with
      | Except.error s => Except.error s
      | Except.ok ph =>
        match mapExcept (pyGet e1.id_to_itemid)
            (model.recommend e1.user_item_matrix uid N [ph]) with
        | Except.error s => Except.error s
        | Except.ok res =>
          assertLen (_extend_with_top_popular e1.overall_top_purchases res N) N e1

/-- `MainRecommender.get_recommendations(user, N)`. -/
def get_recommendations (e : Engine) (user : Nat) (N : Nat) :
    Except String (List Nat × Engine) :=
  match _update_dict e user with
  | Except.error s => Except.error s
  | Except.ok e1 => _get_recommendations e1 user e1.model N

/-- `MainRecommender.get_own_recommendations(user, N)`. -/
def get_own_recommendations (e : Engine) (user : Nat) (N : Nat) :
    Except String (List Nat × Engine) :=
  match _update_dict e user with
  | Except.error s => Except.error s
  | Except.ok e1 => _get_recommendations e1 user e1.own_recommender N

/-- `MainRecommender._get_similar_item(item_id)`: query
`similar_items(itemid_to_id[item_id], N=2)` and map the SECOND result back to
an item id (`recs[1][0]`, raising `IndexError` when fewer than two results
come back). -/
def _get_similar_item (e : Engine) (item_id : Nat) : Except String Nat :=
  match pyGet e.itemid_to_id item_id with
  | Except.error s => Except.error s
  | Except.ok idx =>
    match (e.model.similar_items idx 2)[1]? with
    | none => Except.error "IndexError"
    | some top_rec => pyGet e.id_to_itemid top_rec

/-- The user's top-`N` purchased items
(`self.top_purchases[self.top_purchases['user_id'] == user_id].head(N)`,
then the `item_id` column). -/
def topItems (e : Engine) (user_id N : Nat) : List Nat :=
  ((e.top_purchases.filter (fun p => p.1 == user_id)).take N).map (fun p => p.2.1)

/-- `MainRecommender.get_similar_items_recommendation(user_id, N)`. -/
def get_similar_items_recommendation (e : Engine) (user_id : Nat) (N : Nat) :
    Except String (List Nat × Engine) :=
  match mapExcept (_get_similar_item e) (topItems e user_id N) with
  | Except.error s => Except.error s
  | Except.ok res =>
    assertLen (_extend_with_top_popular e.overall_top_purchases res N) N e

/-- The `for _user_id in similar_users: res.extend(self.get_own_recommendations(_user_id, N=1))`
loop of `get_similar_users_recommendation`, threading the engine state. -/
def simUsersLoop : Engine → List Nat → List Nat → Except String (List Nat × Engine)
  | e, [], acc => Except.ok (acc, e)
  | e, u :: us, acc =>
    match get_own_recommendations e u 1 with
    | Except.error s => Except.error s
    | Except.ok (r, e2) => simUsersLoop e2 us (acc ++ r)

/-- `MainRecommender.get_similar_users_recommendation(user_id, N)`: find the
`N+1` most similar users, map to ids, drop the first (the query user), take
one own-recommendation from each, pad and assert. -/
def get_similar_users_recommendation (e : Engine) (user_id : Nat) (N : Nat) :
    Except String (List Nat × Engine) :=
  match pyGet e.userid_to_id user_id with
  | Except.error s => Except.error s
  | Except.ok uid =>
    match mapExcept (pyGet e.id_to_userid) (e.model.similar_users uid (N + 1)) with
    | Except.error s => Except.error s
    | Except.ok similar_users =>
      match simUsersLoop e (similar_users.drop 1) [] with
      | Except.error s => Except.error s
      | Except.ok (res, e2) =>
        assertLen (_extend_with_top_popular e2.overall_top_purchases res N) N e2

/-- A Python value returned by the evaluator: a numeric metric, an error
message string, or `None` (the implicit return of a fall-through). -/
inductive PyVal where
  | num : Rat → PyVal
  | str : String → PyVal
  | none : PyVal
deriving DecidableEq, Repr

/-- `MainRecommender._get_result(df_result)` (and the older variant's
`_get_result_matcher`): group the held-out frame by `user_id` (keys
ascending) and collect each user's distinct interacted items into the
`actual` column.  (`Series.unique` keeps first-appearance order; `dedup`
models the same distinct set — no theorem depends on the order.) -/
def _get_result (df : List (Nat × Nat)) : List (Nat × List Nat) :=
  (sortedKeys (df.map (·.1))).map
    (fun u => (u, ((df.filter (fun r => r.1 == u)).map (·.2)).dedup))

/-- `result_eval[target_col_name].apply(lambda x: strategy(x, N))`: run one
strategy over the user column, threading the engine's mutable state row by
row; the rows become `(user, actual, recommended)`. -/
def applyRec (f : Engine → Nat → Nat → Except String (List Nat × Engine)) (N : Nat) :
    Engine → List (Nat × List Nat) → Except String (List (Nat × List Nat × List Nat) × Engine)
  | e, [] => Except.ok ([], e)
  | e, row :: rows =>
    match f e row.1 N with
    | Except.error s => Except.error s
    | Except.ok (r, e2) =>
      match applyRec f N e2 rows with
      | Except.error s => Except.error s
      | Except.ok (rest, e3) => Except.ok ((row.1, row.2, r) :: rest, e3)

/-- `MainRecommender._get_recommend_eval(result_eval, ..., recommend_model_type, N_PREDICT)`
(newer variant): dispatch on the strategy tag; an unrecognized tag falls
through to a bare `return`, i.e. Python `None`. -/
def _get_recommend_eval (e : Engine) (tbl : List (Nat × List Nat))
    (recommend_model_type : String) (N_PREDICT : Nat) :
    Except String (Option (List (Nat × List Nat × List Nat) × Engine)) :=
  if recommend_model_type = "own" then
    (applyRec get_own_recommendations N_PREDICT e tbl).map some
  else if recommend_model_type = "rec" then
    (applyRec get_recommendations N_PREDICT e tbl).map some
  else if recommend_model_type = "itm" then
    (applyRec get_similar_items_recommendation N_PREDICT e tbl).map some
  else if recommend_model_type = "usr" then
    (applyRec get_similar_users_recommendation N_PREDICT e tbl).map some
  else
    Except.ok Option.none

/-- `Series.mean()` over exact rationals (pandas' mean of an empty series is
`NaN`; here `ℚ` gives `0 / 0 = 0`, never exercised by a theorem). -/
def listMean (xs : List Rat) : Rat := xs.sum / ((xs.length : Nat) : Rat)

/-- The message of the `AttributeError` raised when the newer
`evalMetrics`/`reranked_metrics` calls `.apply` on the `None` that
`_get_recommend_eval` returns for an unknown strategy tag. -/
def attrErrMsg : String := "AttributeError: NoneType object has no attribute apply"

/-- `MainRecommender.evalMetrics(...)`, newer variant
(`src/src/recommenders.py`): build the ground-truth table, run
`_get_recommend_eval` (which may be `None`), then branch on the metric tag;
the metric lambdas call `.apply` on the table — an `AttributeError` crash
when the table is `None` — and an unknown metric tag falls through to
Python `None`.  The engine is returned alongside to expose the state
mutation of the instance. -/
def evalMetrics (e : Engine) (metric_type : String) (df_result : List (Nat × Nat))
    (recommend_model_type : String) (N_PREDICT : Nat) :
    Except String (PyVal × Engine) :=
  match _get_recommend_eval e (_get_result df_result) recommend_model_type N_PREDICT with
  | Except.error s => Except.error s
  | Except.ok r =>
    if metric_type = "recall" then
      match r with
      | Option.none => Except.error attrErrMsg
      | some (rows, e2) =>
        Except.ok (PyVal.num (listMean (rows.map
          (fun row => recall_at_k row.2.2 row.2.1 N_PREDICT))), e2)
    else if metric_type = "precision" then
      match r with
      | Option.none => Except.error attrErrMsg
      | some (rows, e2) =>
        Except.ok (PyVal.num (listMean (rows.map
          (fun row => precision_at_k row.2.2 row.2.1 N_PREDICT))), e2)
    else
      match r with
      | Option.none => Except.ok (PyVal.none, e)
      | some (_, e2) => Except.ok (PyVal.none, e2)

/-- The older variant's error-result string, returned both for an unknown
strategy tag and for an unknown metric tag (`src/recommenders.py`). -/
def oldErrStr : String := "recommend_model_type must not be empty!"

/-- `MainRecommender.evalMetrics(...)`, older variant
(`src/recommenders.py`): the strategy dispatch is inline and an unknown
strategy tag RETURNS the descriptive string `oldErrStr` before any metric is
computed; an unknown metric tag returns the same string. -/
def evalMetricsOld (e : Engine) (metric_type : String) (df_result : List (Nat × Nat))
    (recommend_model_type : String) (N_PREDICT : Nat) :
    Except String (PyVal × Engine) :=
  match _get_recommend_eval e (_get_result df_result) recommend_model_type N_PREDICT with
  | Except.error s => Except.error s
  | Except.ok Option.none => Except.ok (PyVal.str oldErrStr, e)
  | Except.ok (some (rows, e2)) =>
    if metric_type = "recall" then
      Except.ok (PyVal.num (listMean (rows.map
        (fun row => recall_at_k row.2.2 row.2.1 N_PREDICT))), e2)
    else if metric_type = "precision" then
      Except.ok (PyVal.num (listMean (rows.map
        (fun row => precision_at_k row.2.2 row.2.1 N_PREDICT))), e2)
    else
      Except.ok (PyVal.str oldErrStr, e2)

/-- `MainRecommender._rerank(user_id, df_predict, target_col_name)`: the rows
of the score table whose target column equals the user, sorted by
`proba_item_purchase` descending, `head(5)` — the slice is the literal 5 —
then the `item_id` column. -/
def _rerank (user_id : Nat) (df_predict : List ScoreRow) : List Nat :=
  ((List.insertionSort
      (fun a b : ScoreRow => b.proba_item_purchase ≤ a.proba_item_purchase)
      (df_predict.filter (fun r => r.user_id == user_id))).take 5).map (·.item_id)

/-- The `reranked_...` column added by `reranked_metrics`: `_rerank` applied
to each user of the evaluation table.  `N_PREDICT` is carried as a parameter
to record that the source never consults it here. -/
def rerankedColumn (tbl : List (Nat × List Nat)) (df_predict : List ScoreRow)
    (N_PREDICT : Nat) : List (Nat × List Nat) :=
  tbl.map (fun row => (row.1, _rerank row.1 df_predict))

/-- `MainRecommender.reranked_metrics(...)` (newer variant): materialize the
base strategy's lists (for pipeline consistency), replace them by the
re-ranked column, compute the metric at `k = N_PREDICT`, and — when
`return_reranked_data` — also return `result_eval[['user_id', reranked]]`.
An unknown strategy tag leaves the table `None`, and the column assignment
then raises (`TypeError`/`AttributeError` on `None`; one message models
both). An unknown metric tag leaves the metric `None`. -/
def reranked_metrics (e : Engine) (metric_type : String) (df_result : List (Nat × Nat))
    (df_predict : List ScoreRow) (recommend_model_type : String) (N_PREDICT : Nat)
    (return_reranked_data : Bool) :
    Except String ((PyVal × Option (List (Nat × List Nat))) × Engine) :=
  match _get_recommend_eval e (_get_result df_result) recommend_model_type N_PREDICT with
  | Except.error s => Except.error s
  | Except.ok Option.none => Except.error attrErrMsg
  | Except.ok (some (rows, e2)) =>
    let tbl := rows.map (fun row => (row.1, row.2.1))
    let reranked := rerankedColumn tbl df_predict N_PREDICT
    let metric_result : PyVal :=
      if metric_type = "recall" then
        PyVal.num (listMean ((rows.zip reranked).map
          (fun rr => recall_at_k rr.2.2 rr.1.2.1 N_PREDICT)))
      else if metric_type = "precision" then
        PyVal.num (listMean ((rows.zip reranked).map
          (fun rr => precision_at_k rr.2.2 rr.1.2.1 N_PREDICT)))
      else PyVal.none
    if return_reranked_data then
      Except.ok ((metric_result, some reranked), e2)
    else
      Except.ok ((metric_result, Option.none), e2)

/-! ## Concrete fixtures for check instances -/

/-- A stub fitted model whose every query answers the empty ranking. -/
def trivialModel : Model :=
  ⟨fun _ _ _ _ => [], fun _ _ => [], fun _ _ => []⟩

/-- An engine built from no data: every dictionary and table is empty. -/
def emptyEngine : Engine :=
  ⟨[], [], [], [], [], [], fun _ _ => 0, trivialModel, trivialModel⟩

/-- An engine with a single registered user (id 4, index 0). -/
def oneUserEngine : Engine :=
  ⟨[(4, 0)], [(0, 4)], [], [], [], [], fun _ _ => 0, trivialModel, trivialModel⟩

/-- An engine with one user, the placeholder item column, and a two-item
popularity ranking — the models answer empty rankings, so every strategy
falls back to the popularity list. -/
def fallbackEngine : Engine :=
  ⟨[(1, 0)], [(0, 1)], [(999999, 0)], [(0, 999999)], [], [2, 3],
    fun _ _ => 0, trivialModel, trivialModel⟩

/-- A model whose `similar_items` ranks the queried index first and the
fixed index 1 second (self-inclusion contract shape). -/
def selfThenOneModel : Model :=
  ⟨fun _ _ _ _ => [], fun i _ => [i, 1], fun _ _ => []⟩

/-- An engine whose matrix has a real item (id 5, index 0) and the
placeholder column (id 999999, index 1); its model ranks index 1 — the
placeholder — as the second-most-similar item of every query. -/
def placeholderSecondEngine : Engine :=
  ⟨[(10, 0)], [(0, 10)], [(5, 0), (999999, 1)], [(0, 5), (1, 999999)],
    [(10, 5, 3)], [5], fun _ _ => 0, selfThenOneModel, selfThenOneModel⟩

/-- A model whose `similar_items` ranks the queried index first and the
other of the two indices `{0, 1}` second. -/
def swapPairModel : Model :=
  ⟨fun _ _ _ _ => [], fun i _ => [i, 1 - i], fun _ _ => []⟩

/-- An engine with two items (ids 1 and 2 at indices 0 and 1) whose model
answers the other item as second-most-similar. -/
def twoItemEngine : Engine :=
  ⟨[(10, 0)], [(0, 10)], [(1, 0), (2, 1)], [(0, 1), (1, 2)],
    [(10, 1, 3)], [1, 2], fun _ _ => 0, swapPairModel, swapPairModel⟩

/-- Two records for the same pair (user 1, item 1), with quantities 1 and 3
and sales values 2 and 4. -/
def duplicatePairData : List Record := [⟨1, 1, 1, 2⟩, ⟨1, 1, 3, 4⟩]

/-! ## Helper lemmas -/

theorem assertLen_ok {res res' : List Nat} {N : Nat} {e e' : Engine}
    (h : assertLen res N e = Except.ok (res', e')) :
    res' = res ∧ e' = e ∧ res.length = N := by
  unfold assertLen at h
  split at h
  · cases h; exact ⟨rfl, rfl, by assumption⟩
  · cases h

theorem assertLen_error {res : List Nat} {N : Nat} {e : Engine} {s : String}
    (h : assertLen res N e = Except.error s) : s = assertMsg ∧ res.length ≠ N := by
  unfold assertLen at h
  split at h
  · cases h
  · cases h; exact ⟨rfl, by assumption⟩

theorem assertLen_of_length {res : List Nat} {N : Nat} (e : Engine)
    (h : res.length = N) : assertLen res N e = Except.ok (res, e) := by
  unfold assertLen
  rw [if_pos h]

/-- C2's shape, lower half: a raw list shorter than `N` is extended by exactly
the first `N − L` popularity entries, in order, by plain concatenation. -/
theorem extend_eq_append (top raw : List Nat) (N : Nat) (h : raw.length < N) :
    _extend_with_top_popular top raw N = raw ++ top.take (N - raw.length) := by
  unfold _extend_with_top_popular
  rw [if_pos h, List.take_append_eq_append_take,
    List.take_of_length_le (le_of_lt h), List.take_take,
    Nat.min_eq_left (Nat.sub_le _ _)]

/-- C2's shape, upper half: a raw list of length at least `N` is unchanged. -/
theorem extend_eq_self (top raw : List Nat) (N : Nat) (h : N ≤ raw.length) :
    _extend_with_top_popular top raw N = raw := by
  unfold _extend_with_top_popular
  rw [if_neg (by omega)]

theorem extend_length {top raw : List Nat} {N : Nat} (hraw : raw.length ≤ N)
    (htop : N ≤ top.length) : (_extend_with_top_popular top raw N).length = N := by
  by_cases h : raw.length < N
  · simp only [_extend_with_top_popular, if_pos h, List.length_take, List.length_append]
    omega
  · simp only [_extend_with_top_popular, if_neg h]
    omega

theorem extend_mem {top raw : List Nat} {N x : Nat}
    (hx : x ∈ _extend_with_top_popular top raw N) : x ∈ raw ∨ x ∈ top := by
  unfold _extend_with_top_popular at hx
  split at hx
  · rcases List.mem_append.1 ((List.take_sublist _ _).mem hx) with h | h
    · exact Or.inl h
    · exact Or.inr ((List.take_sublist _ _).mem h)
  · exact Or.inl hx

theorem extend_getElem_lt {top raw : List Nat} {N i : Nat} (hi : i < raw.length) :
    (_extend_with_top_popular top raw N)[i]? = raw[i]? := by
  by_cases h : raw.length < N
  · rw [extend_eq_append top raw N h, List.getElem?_append_left hi]
  · rw [extend_eq_self top raw N (by omega)]

theorem mapExcept_ok_length {α β : Type} {f : α → Except String β} {xs : List α}
    {ys : List β} (h : mapExcept f xs = Except.ok ys) : ys.length = xs.length := by
  induction xs generalizing ys with
  | nil =>
    unfold mapExcept at h
    cases h
    rfl
  | cons a as ih =>
    unfold mapExcept at h
    cases hfa : f a with
    | error s => rw [hfa] at h; cases h
    | ok b =>
      rw [hfa] at h
      cases hrec : mapExcept f as with
      | error s => rw [hrec] at h; cases h
      | ok bs =>
        rw [hrec] at h
        cases h
        simp [ih hrec]

theorem mapExcept_error {α β : Type} {f : α → Except String β} {xs : List α}
    {s : String} (h : mapExcept f xs = Except.error s) :
    ∃ x ∈ xs, f x = Except.error s := by
  induction xs with
  | nil => unfold mapExcept at h; cases h
  | cons a as ih =>
    unfold mapExcept at h
    cases hfa : f a with
    | error s' =>
      rw [hfa] at h
      cases h
      exact ⟨a, List.mem_cons_self a as, hfa⟩
    | ok b =>
      rw [hfa] at h
      cases hrec : mapExcept f as with
      | error s' =>
        rw [hrec] at h
        cases h
        obtain ⟨x, hx, hfx⟩ := ih hrec
        exact ⟨x, List.mem_cons_of_mem a hx, hfx⟩
      | ok bs => rw [hrec] at h; cases h

theorem mapExcept_ok_mem {α β : Type} {f : α → Except String β} {xs : List α}
    {ys : List β} (h : mapExcept f xs = Except.ok ys) :
    ∀ y ∈ ys, ∃ x ∈ xs, f x = Except.ok y := by
  induction xs generalizing ys with
  | nil =>
    unfold mapExcept at h
    cases h
    intro y hy
    cases hy
  | cons a as ih =>
    unfold mapExcept at h
    cases hfa : f a with
    | error s => rw [hfa] at h; cases h
    | ok b =>
      rw [hfa] at h
      cases hrec : mapExcept f as with
      | error s => rw [hrec] at h; cases h
      | ok bs =>
        rw [hrec] at h
        cases h
        intro y hy
        rcases List.mem_cons.1 hy with hy | hy
        · exact ⟨a, List.mem_cons_self a as, hy ▸ hfa⟩
        · obtain ⟨x, hx, hfx⟩ := ih hrec y hy
          exact ⟨x, List.mem_cons_of_mem a hx, hfx⟩

theorem mapExcept_ok_getElem {α β : Type} {f : α → Except String β} {xs : List α}
    {ys : List β} (h : mapExcept f xs = Except.ok ys) :
    ∀ (i : Nat) (x : α), xs[i]? = some x →
      ∃ y : β, ys[i]? = some y ∧ f x = Except.ok y := by
  induction xs generalizing ys with
  | nil =>
    intro i x hx
    simp at hx
  | cons a as ih =>
    unfold mapExcept at h
    cases hfa : f a with
    | error s => rw [hfa] at h; cases h
    | ok b =>
      rw [hfa] at h
      cases hrec : mapExcept f as with
      | error s => rw [hrec] at h; cases h
      | ok bs =>
        rw [hrec] at h
        cases h
        intro i x hx
        cases i with
        | zero =>
          simp only [List.getElem?_cons_zero, Option.some.injEq] at hx
          subst hx
          exact ⟨b, by simp, hfa⟩
        | succ j =>
          simp only [List.getElem?_cons_succ] at hx ⊢
          exact ih hrec j x hx

theorem pyGet_error {m : List (Nat × Nat)} {k : Nat} {s : String}
    (h : pyGet m k = Except.error s) : s = "KeyError" := by
  unfold pyGet at h
  cases hl : dictLookup m k with
  | none => rw [hl] at h; cases h; rfl
  | some v => rw [hl] at h; cases h

theorem pyGet_ok_mem {m : List (Nat × Nat)} {k v : Nat}
    (h : pyGet m k = Except.ok v) : (k, v) ∈ m := by
  unfold pyGet at h
  cases hl : dictLookup m k with
  | none => rw [hl] at h; cases h
  | some w =>
    rw [hl] at h
    cases h
    unfold dictLookup at hl
    cases hf : m.find? (fun q => q.1 == k) with
    | none => rw [hf] at hl; cases hl
    | some q =>
      rw [hf] at hl
      cases hl
      have hmem := List.mem_of_find?_eq_some hf
      have hkey := List.find?_some hf
      have hq : q = (k, q.2) := by
        cases q
        simp_all [Nat.beq_eq_true_eq]
      exact hq ▸ hmem

theorem pyGet_ok_lookup {m : List (Nat × Nat)} {k v : Nat}
    (h : pyGet m k = Except.ok v) : dictLookup m k = some v := by
  unfold pyGet at h
  cases hl : dictLookup m k with
  | none => rw [hl] at h; cases h
  | some w => rw [hl] at h; cases h; rfl

/-- The population ranking built by `__init__` never contains the
placeholder item id: the row filter drops it before `tolist()`. -/
theorem overall_top_no_placeholder (data : List Record) :
    999999 ∉ overall_top_purchases data := by
  intro h
  unfold overall_top_purchases at h
  obtain ⟨p, hp, hp1⟩ := List.mem_map.1 h
  have hfil := List.of_mem_filter hp
  simp only [decide_eq_true_eq] at hfil
  exact hfil hp1

/-! ## Frame predicate and state lemmas -/

/-- C9's frame: between two engine states, every construction-time field is
identical and the two user dictionaries have only grown by appending. -/
def OnlyUserMapsGrow (e e' : Engine) : Prop :=
  e'.itemid_to_id = e.itemid_to_id ∧ e'.id_to_itemid = e.id_to_itemid ∧
  e'.top_purchases = e.top_purchases ∧
  e'.overall_top_purchases = e.overall_top_purchases ∧
  e'.user_item_matrix = e.user_item_matrix ∧
  e'.model = e.model ∧ e'.own_recommender = e.own_recommender ∧
  (∃ t, e'.userid_to_id = e.userid_to_id ++ t) ∧
  (∃ t, e'.id_to_userid = e.id_to_userid ++ t)

theorem onlyUserMapsGrow_refl (e : Engine) : OnlyUserMapsGrow e e :=
  ⟨rfl, rfl, rfl, rfl, rfl, rfl, rfl, ⟨[], by simp⟩, ⟨[], by simp⟩⟩

theorem onlyUserMapsGrow_trans {e1 e2 e3 : Engine}
    (h12 : OnlyUserMapsGrow e1 e2) (h23 : OnlyUserMapsGrow e2 e3) :
    OnlyUserMapsGrow e1 e3 := by
  obtain ⟨a1, a2, a3, a4, a5, a6, a7, ⟨t1, a8⟩, ⟨t2, a9⟩⟩ := h12
  obtain ⟨b1, b2, b3, b4, b5, b6, b7, ⟨u1, b8⟩, ⟨u2, b9⟩⟩ := h23
  refine ⟨b1.trans a1, b2.trans a2, b3.trans a3, b4.trans a4, b5.trans a5,
    b6.trans a6, b7.trans a7, ⟨t1 ++ u1, ?_⟩, ⟨t2 ++ u2, ?_⟩⟩
  · rw [b8, a8, List.append_assoc]
  · rw [b9, a9, List.append_assoc]

theorem _update_dict_ok {e e' : Engine} {u : Nat}
    (h : _update_dict e u = Except.ok e') : OnlyUserMapsGrow e e' := by
  unfold _update_dict at h
  split at h
  · cases h
    exact onlyUserMapsGrow_refl _
  · cases hm : (e.userid_to_id.map (·.2)).max? with
    | none => rw [hm] at h; cases h
    | some max_id =>
      rw [hm] at h
      cases h
      exact ⟨rfl, rfl, rfl, rfl, rfl, rfl, rfl, ⟨_, rfl⟩, ⟨_, rfl⟩⟩

theorem _update_dict_error {e : Engine} {u : Nat} {s : String}
    (h : _update_dict e u = Except.error s) : s = valueErrMsg := by
  unfold _update_dict at h
  split at h
  · cases h
  · cases hm : (e.userid_to_id.map (·.2)).max? with
    | none => rw [hm] at h; cases h; rfl
    | some max_id => rw [hm] at h; cases h

theorem keyErr_ne_assert : "KeyError" ≠ assertMsg := by decide

theorem valueErr_ne_assert : valueErrMsg ≠ assertMsg := by decide

theorem indexErr_ne_assert : "IndexError" ≠ assertMsg := by decide

/-- A successful `_get_recommendations` call returns exactly `N` ids and
changes nothing but the user dictionaries. -/
theorem _get_recommendations_ok {e e' : Engine} {u N : Nat} {m : Model}
    {res : List Nat} (h : _get_recommendations e u m N = Except.ok (res, e')) :
    res.length = N ∧ OnlyUserMapsGrow e e' := by
  unfold _get_recommendations at h
  cases hud : _update_dict e u with
  | error s => rw [hud] at h; cases h
  | ok e1 =>
    rw [hud] at h
    dsimp only at h
    cases hu : pyGet e1.userid_to_id u with
    | error s => rw [hu] at h; cases h
    | ok uid =>
      rw [hu] at h
      dsimp only at h
      cases hp : pyGet e1.itemid_to_id 999999 with
      | error s => rw [hp] at h; cases h
      | ok ph =>
        rw [hp] at h
        dsimp only at h
        cases hmap : mapExcept (pyGet e1.id_to_itemid)
            (m.recommend e1.user_item_matrix uid N [ph]) with
        | error s => rw [hmap] at h; cases h
        | ok raw =>
          rw [hmap] at h
          obtain ⟨hres, he, hlen⟩ := assertLen_ok h
          subst hres
          subst he
          exact ⟨hlen, _update_dict_ok hud⟩

/-- An unsuccessful `_get_recommendations` call under the adapter's
length contract and a sufficiently long popularity ranking is never the
`assert` failing: the model's raw list is at most `N` long and the fallback
pads it to exactly `N`. -/
theorem _get_recommendations_error {e : Engine} {u N : Nat} {m : Model} {s : String}
    (hrec : ∀ mat uid f, (m.recommend mat uid N f).length ≤ N)
    (htop : N ≤ e.overall_top_purchases.length)
    (h : _get_recommendations e u m N = Except.error s) : s ≠ assertMsg := by
  unfold _get_recommendations at h
  cases hud : _update_dict e u with
  | error s' =>
    rw [hud] at h
    cases h
    exact (_update_dict_error hud) ▸ valueErr_ne_assert
  | ok e1 =>
    rw [hud] at h
    dsimp only at h
    have htop1 : N ≤ e1.overall_top_purchases.length :=
      (_update_dict_ok hud).2.2.2.1 ▸ htop
    cases hu : pyGet e1.userid_to_id u with
    | error s' =>
      rw [hu] at h
      dsimp only at h
      cases h
      exact (pyGet_error hu) ▸ keyErr_ne_assert
    | ok uid =>
      rw [hu] at h
      dsimp only at h
      cases hp : pyGet e1.itemid_to_id 999999 with
      | error s' =>
        rw [hp] at h
        dsimp only at h
        cases h
        exact (pyGet_error hp) ▸ keyErr_ne_assert
      | ok ph =>
        rw [hp] at h
        dsimp only at h
        cases hmap : mapExcept (pyGet e1.id_to_itemid)
            (m.recommend e1.user_item_matrix uid N [ph]) with
        | error s' =>
          rw [hmap] at h
          dsimp only at h
          cases h
          obtain ⟨x, _, hx⟩ := mapExcept_error hmap
          exact (pyGet_error hx) ▸ keyErr_ne_assert
        | ok raw =>
          rw [hmap] at h
          dsimp only at h
          have hraw : raw.length ≤ N :=
            (mapExcept_ok_length hmap) ▸ hrec e1.user_item_matrix uid [ph]
          rw [assertLen_of_length e1 (extend_length hraw htop1)] at h
          cases h

theorem get_recommendations_ok {e e' : Engine} {u N : Nat} {res : List Nat}
    (h : get_recommendations e u N = Except.ok (res, e')) :
    res.length = N ∧ OnlyUserMapsGrow e e' := by
  unfold get_recommendations at h
  cases hud : _update_dict e u with
  | error s => rw [hud] at h; cases h
  | ok e1 =>
    rw [hud] at h
    dsimp only at h
    obtain ⟨h1, h2⟩ := _get_recommendations_ok h
    exact ⟨h1, onlyUserMapsGrow_trans (_update_dict_ok hud) h2⟩

theorem get_recommendations_error {e : Engine} {u N : Nat} {s : String}
    (hrec : ∀ mat uid f, (e.model.recommend mat uid N f).length ≤ N)
    (htop : N ≤ e.overall_top_purchases.length)
    (h : get_recommendations e u N = Except.error s) : s ≠ assertMsg := by
  unfold get_recommendations at h
  cases hud : _update_dict e u with
  | error s' =>
    rw [hud] at h
    cases h
    exact (_update_dict_error hud) ▸ valueErr_ne_assert
  | ok e1 =>
    rw [hud] at h
    dsimp only at h
    have hframe := _update_dict_ok hud
    exact _get_recommendations_error (hframe.2.2.2.2.2.1 ▸ hrec)
      (hframe.2.2.2.1 ▸ htop) h

theorem get_own_recommendations_ok {e e' : Engine} {u N : Nat} {res : List Nat}
    (h : get_own_recommendations e u N = Except.ok (res, e')) :
    res.length = N ∧ OnlyUserMapsGrow e e' := by
  unfold get_own_recommendations at h
  cases hud : _update_dict e u with
  | error s => rw [hud] at h; cases h
  | ok e1 =>
    rw [hud] at h
    dsimp only at h
    obtain ⟨h1, h2⟩ := _get_recommendations_ok h
    exact ⟨h1, onlyUserMapsGrow_trans (_update_dict_ok hud) h2⟩

theorem get_own_recommendations_error {e : Engine} {u N : Nat} {s : String}
    (hrec : ∀ mat uid f, (e.own_recommender.recommend mat uid N f).length ≤ N)
    (htop : N ≤ e.overall_top_purchases.length)
    (h : get_own_recommendations e u N = Except.error s) : s ≠ assertMsg := by
  unfold get_own_recommendations at h
  cases hud : _update_dict e u with
  | error s' =>
    rw [hud] at h
    cases h
    exact (_update_dict_error hud) ▸ valueErr_ne_assert
  | ok e1 =>
    rw [hud] at h
    dsimp only at h
    have hframe := _update_dict_ok hud
    exact _get_recommendations_error (hframe.2.2.2.2.2.2.1 ▸ hrec)
      (hframe.2.2.2.1 ▸ htop) h

theorem _get_similar_item_error {e : Engine} {it : Nat} {s : String}
    (h : _get_similar_item e it = Except.error s) :
    s = "KeyError" ∨ s = "IndexError" := by
  unfold _get_similar_item at h
  cases hi : pyGet e.itemid_to_id it with
  | error s' =>
    rw [hi] at h
    cases h
    exact Or.inl (pyGet_error hi)
  | ok idx =>
    rw [hi] at h
    dsimp only at h
    cases hs : (e.model.similar_items idx 2)[1]? with
    | none => rw [hs] at h; cases h; exact Or.inr rfl
    | some t =>
      rw [hs] at h
      dsimp only at h
      exact Or.inl (pyGet_error h)

theorem get_similar_items_recommendation_ok {e e' : Engine} {u N : Nat}
    {res : List Nat}
    (h : get_similar_items_recommendation e u N = Except.ok (res, e')) :
    res.length = N ∧ e' = e := by
  unfold get_similar_items_recommendation at h
  cases hmap : mapExcept (_get_similar_item e) (topItems e u N) with
  | error s => rw [hmap] at h; cases h
  | ok raw =>
    rw [hmap] at h
    dsimp only at h
    obtain ⟨hres, he, hlen⟩ := assertLen_ok h
    subst hres
    exact ⟨hlen, he⟩

theorem topItems_length_le (e : Engine) (u N : Nat) :
    (topItems e u N).length ≤ N := by
  unfold topItems
  simp [List.length_take]

theorem get_similar_items_recommendation_error {e : Engine} {u N : Nat} {s : String}
    (htop : N ≤ e.overall_top_purchases.length)
    (h : get_similar_items_recommendation e u N = Except.error s) : s ≠ assertMsg := by
  unfold get_similar_items_recommendation at h
  cases hmap : mapExcept (_get_similar_item e) (topItems e u N) with
  | error s' =>
    rw [hmap] at h
    cases h
    obtain ⟨x, _, hx⟩ := mapExcept_error hmap
    rcases _get_similar_item_error hx with h' | h'
    · exact h' ▸ keyErr_ne_assert
    · exact h' ▸ indexErr_ne_assert
  | ok raw =>
    rw [hmap] at h
    dsimp only at h
    have hraw : raw.length ≤ N :=
      (mapExcept_ok_length hmap) ▸ topItems_length_le e u N
    rw [assertLen_of_length e (extend_length hraw htop)] at h
    cases h

theorem simUsersLoop_ok {us : List Nat} {e e' : Engine} {acc res : List Nat}
    (h : simUsersLoop e us acc = Except.ok (res, e')) :
    res.length = acc.length + us.length ∧ OnlyUserMapsGrow e e' := by
  induction us generalizing e acc with
  | nil =>
    unfold simUsersLoop at h
    cases h
    exact ⟨by simp, onlyUserMapsGrow_refl _⟩
  | cons u us ih =>
    unfold simUsersLoop at h
    cases hg : get_own_recommendations e u 1 with
    | error s => rw [hg] at h; cases h
    | ok p =>
      obtain ⟨r, e2⟩ := p
      rw [hg] at h
      dsimp only at h
      obtain ⟨hr1, hgrow⟩ := get_own_recommendations_ok hg
      obtain ⟨hlen, hgrow2⟩ := ih h
      constructor
      · rw [hlen]
        simp only [List.length_append, List.length_cons, hr1]
        omega
      · exact onlyUserMapsGrow_trans hgrow hgrow2

theorem simUsersLoop_error {us : List Nat} {e : Engine} {acc : List Nat} {s : String}
    (hown : ∀ mat uid f, (e.own_recommender.recommend mat uid 1 f).length ≤ 1)
    (htop : 1 ≤ e.overall_top_purchases.length)
    (h : simUsersLoop e us acc = Except.error s) : s ≠ assertMsg := by
  induction us generalizing e acc with
  | nil => unfold simUsersLoop at h; cases h
  | cons u us ih =>
    unfold simUsersLoop at h
    cases hg : get_own_recommendations e u 1 with
    | error s' =>
      rw [hg] at h
      cases h
      exact get_own_recommendations_error hown htop hg
    | ok p =>
      obtain ⟨r, e2⟩ := p
      rw [hg] at h
      dsimp only at h
      have hgrow := (get_own_recommendations_ok hg).2
      exact ih (hgrow.2.2.2.2.2.2.1 ▸ hown) (hgrow.2.2.2.1 ▸ htop) h

theorem get_similar_users_recommendation_ok {e e' : Engine} {u N : Nat}
    {res : List Nat}
    (h : get_similar_users_recommendation e u N = Except.ok (res, e')) :
    res.length = N ∧ OnlyUserMapsGrow e e' := by
  unfold get_similar_users_recommendation at h
  cases hu : pyGet e.userid_to_id u with
  | error s => rw [hu] at h; cases h
  | ok uid =>
    rw [hu] at h
    dsimp only at h
    cases hmap : mapExcept (pyGet e.id_to_userid) (e.model.similar_users uid (N + 1)) with
    | error s => rw [hmap] at h; cases h
    | ok sids =>
      rw [hmap] at h
      dsimp only at h
      cases hloop : simUsersLoop e (sids.drop 1) [] with
      | error s => rw [hloop] at h; cases h
      | ok p =>
        obtain ⟨res0, e2⟩ := p
        rw [hloop] at h
        dsimp only at h
        obtain ⟨hres, he, hlen⟩ := assertLen_ok h
        subst hres
        subst he
        exact ⟨hlen, (simUsersLoop_ok hloop).2⟩

theorem get_similar_users_recommendation_error {e : Engine} {u N : Nat} {s : String}
    (hN : 1 ≤ N)
    (hown : ∀ mat uid f, (e.own_recommender.recommend mat uid 1 f).length ≤ 1)
    (hsu : ∀ uid, (e.model.similar_users uid (N + 1)).length ≤ N + 1)
    (htop : N ≤ e.overall_top_purchases.length)
    (h : get_similar_users_recommendation e u N = Except.error s) : s ≠ assertMsg := by
  unfold get_similar_users_recommendation at h
  cases hu : pyGet e.userid_to_id u with
  | error s' =>
    rw [hu] at h
    cases h
    exact (pyGet_error hu) ▸ keyErr_ne_assert
  | ok uid =>
    rw [hu] at h
    dsimp only at h
    cases hmap : mapExcept (pyGet e.id_to_userid) (e.model.similar_users uid (N + 1)) with
    | error s' =>
      rw [hmap] at h
      cases h
      obtain ⟨x, _, hx⟩ := mapExcept_error hmap
      exact (pyGet_error hx) ▸ keyErr_ne_assert
    | ok sids =>
      rw [hmap] at h
      dsimp only at h
      cases hloop : simUsersLoop e (sids.drop 1) [] with
      | error s' =>
        rw [hloop] at h
        cases h
        exact simUsersLoop_error hown (le_trans hN htop) hloop
      | ok p =>
        obtain ⟨res0, e2⟩ := p
        rw [hloop] at h
        dsimp only at h
        obtain ⟨hlen0, hgrow⟩ := simUsersLoop_ok hloop
        have hsids : sids.length ≤ N + 1 :=
          (mapExcept_ok_length hmap) ▸ hsu uid
        have hres0 : res0.length ≤ N := by
          rw [hlen0]
          simp [List.length_drop]
          omega
        rw [assertLen_of_length e2
          (extend_length hres0 (hgrow.2.2.2.1 ▸ htop))] at h
        cases h

/-! ## Placeholder-exclusion lemmas (C3) -/

/-- Under the adapter's exclusion contract (the supplied filter indices never
appear in `recommend`'s answer) and consistency of the id dictionaries, a
successful `_get_recommendations` never returns the placeholder id: the
query excludes its index and the fallback list was filtered at
construction. -/
theorem _get_recommendations_no_placeholder {e e' : Engine} {u N ph : Nat}
    {m : Model} {res : List Nat}
    (hph : dictLookup e.itemid_to_id 999999 = some ph)
    (hinj : ∀ q ∈ e.id_to_itemid, q.2 = 999999 → q.1 = ph)
    (hfil : ∀ mat uid N' f x, x ∈ f → x ∉ m.recommend mat uid N' f)
    (htop999 : 999999 ∉ e.overall_top_purchases)
    (h : _get_recommendations e u m N = Except.ok (res, e')) :
    999999 ∉ res := by
  unfold _get_recommendations at h
  cases hud : _update_dict e u with
  | error s => rw [hud] at h; cases h
  | ok e1 =>
    rw [hud] at h
    dsimp only at h
    obtain ⟨f1, f2, _, f4, _, _, _, _, _⟩ := _update_dict_ok hud
    cases hu : pyGet e1.userid_to_id u with
    | error s => rw [hu] at h; cases h
    | ok uid =>
      rw [hu] at h
      dsimp only at h
      cases hp : pyGet e1.itemid_to_id 999999 with
      | error s => rw [hp] at h; cases h
      | ok ph0 =>
        rw [hp] at h
        dsimp only at h
        have hph0 : ph0 = ph := by
          have hd := pyGet_ok_lookup hp
          rw [f1, hph] at hd
          exact (Option.some_inj.1 hd).symm
        cases hmap : mapExcept (pyGet e1.id_to_itemid)
            (m.recommend e1.user_item_matrix uid N [ph0]) with
        | error s => rw [hmap] at h; cases h
        | ok raw =>
          rw [hmap] at h
          dsimp only at h
          obtain ⟨hres, he, _⟩ := assertLen_ok h
          subst hres
          intro hmem
          rcases extend_mem hmem with hmem | hmem
          · obtain ⟨t, ht, hpt⟩ := mapExcept_ok_mem hmap 999999 hmem
            have htmem : (t, 999999) ∈ e.id_to_itemid := f2 ▸ pyGet_ok_mem hpt
            have htp : t = ph := hinj (t, 999999) htmem rfl
            exact hfil e1.user_item_matrix uid N [ph0] t
              (by rw [htp, hph0]; exact List.mem_singleton.2 rfl) ht
          · exact htop999 (f4 ▸ hmem)

theorem get_recommendations_no_placeholder {e e' : Engine} {u N ph : Nat}
    {res : List Nat}
    (hph : dictLookup e.itemid_to_id 999999 = some ph)
    (hinj : ∀ q ∈ e.id_to_itemid, q.2 = 999999 → q.1 = ph)
    (hfil : ∀ mat uid N' f x, x ∈ f → x ∉ e.model.recommend mat uid N' f)
    (htop999 : 999999 ∉ e.overall_top_purchases)
    (h : get_recommendations e u N = Except.ok (res, e')) :
    999999 ∉ res := by
  unfold get_recommendations at h
  cases hud : _update_dict e u with
  | error s => rw [hud] at h; cases h
  | ok e1 =>
    rw [hud] at h
    dsimp only at h
    obtain ⟨f1, f2, _, f4, _, f6, _, _, _⟩ := _update_dict_ok hud
    exact _get_recommendations_no_placeholder (f1 ▸ hph) (f2 ▸ hinj)
      (f6 ▸ hfil) (f4 ▸ htop999) h

theorem get_own_recommendations_no_placeholder {e e' : Engine} {u N ph : Nat}
    {res : List Nat}
    (hph : dictLookup e.itemid_to_id 999999 = some ph)
    (hinj : ∀ q ∈ e.id_to_itemid, q.2 = 999999 → q.1 = ph)
    (hfil : ∀ mat uid N' f x, x ∈ f → x ∉ e.own_recommender.recommend mat uid N' f)
    (htop999 : 999999 ∉ e.overall_top_purchases)
    (h : get_own_recommendations e u N = Except.ok (res, e')) :
    999999 ∉ res := by
  unfold get_own_recommendations at h
  cases hud : _update_dict e u with
  | error s => rw [hud] at h; cases h
  | ok e1 =>
    rw [hud] at h
    dsimp only at h
    obtain ⟨f1, f2, _, f4, _, _, f7, _, _⟩ := _update_dict_ok hud
    exact _get_recommendations_no_placeholder (f1 ▸ hph) (f2 ▸ hinj)
      (f7 ▸ hfil) (f4 ▸ htop999) h

theorem simUsersLoop_no_placeholder {us : List Nat} {e e' : Engine} {ph : Nat}
    {acc res : List Nat}
    (hph : dictLookup e.itemid_to_id 999999 = some ph)
    (hinj : ∀ q ∈ e.id_to_itemid, q.2 = 999999 → q.1 = ph)
    (hfil : ∀ mat uid N' f x, x ∈ f → x ∉ e.own_recommender.recommend mat uid N' f)
    (htop999 : 999999 ∉ e.overall_top_purchases)
    (hacc : 999999 ∉ acc)
    (h : simUsersLoop e us acc = Except.ok (res, e')) : 999999 ∉ res := by
  induction us generalizing e acc with
  | nil =>
    unfold simUsersLoop at h
    cases h
    exact hacc
  | cons u us ih =>
    unfold simUsersLoop at h
    cases hg : get_own_recommendations e u 1 with
    | error s => rw [hg] at h; cases h
    | ok p =>
      obtain ⟨r, e2⟩ := p
      rw [hg] at h
      dsimp only at h
      have hr : 999999 ∉ r :=
        get_own_recommendations_no_placeholder hph hinj hfil htop999 hg
      obtain ⟨f1, f2, _, f4, _, _, f7, _, _⟩ := (get_own_recommendations_ok hg).2
      refine ih (f1 ▸ hph) (f2 ▸ hinj) (f7 ▸ hfil) (f4 ▸ htop999) ?_ h
      intro hmem
      rcases List.mem_append.1 hmem with hmem | hmem
      · exact hacc hmem
      · exact hr hmem

theorem get_similar_users_recommendation_no_placeholder {e e' : Engine}
    {u N ph : Nat} {res : List Nat}
    (hph : dictLookup e.itemid_to_id 999999 = some ph)
    (hinj : ∀ q ∈ e.id_to_itemid, q.2 = 999999 → q.1 = ph)
    (hfil : ∀ mat uid N' f x, x ∈ f → x ∉ e.own_recommender.recommend mat uid N' f)
    (htop999 : 999999 ∉ e.overall_top_purchases)
    (h : get_similar_users_recommendation e u N = Except.ok (res, e')) :
    999999 ∉ res := by
  unfold get_similar_users_recommendation at h
  cases hu : pyGet e.userid_to_id u with
  | error s => rw [hu] at h; cases h
  | ok uid =>
    rw [hu] at h
    dsimp only at h
    cases hmap : mapExcept (pyGet e.id_to_userid) (e.model.similar_users uid (N + 1)) with
    | error s => rw [hmap] at h; cases h
    | ok sids =>
      rw [hmap] at h
      dsimp only at h
      cases hloop : simUsersLoop e (sids.drop 1) [] with
      | error s => rw [hloop] at h; cases h
      | ok p =>
        obtain ⟨res0, e2⟩ := p
        rw [hloop] at h
        dsimp only at h
        obtain ⟨hres, he, _⟩ := assertLen_ok h
        subst hres
        have hres0 : 999999 ∉ res0 :=
          simUsersLoop_no_placeholder hph hinj hfil htop999 (by simp) hloop
        have f4 := (simUsersLoop_ok hloop).2.2.2.2.1
        intro hmem
        rcases extend_mem hmem with hmem | hmem
        · exact hres0 hmem
        · exact htop999 (f4 ▸ hmem)

/-! ## Similar-item self-exclusion lemmas (C7) -/

/-- A successful `_get_similar_item` implies the item-id lookup succeeded. -/
theorem _get_similar_item_ok_idx {e : Engine} {it r : Nat}
    (h : _get_similar_item e it = Except.ok r) :
    ∃ idx, dictLookup e.itemid_to_id it = some idx := by
  unfold _get_similar_item at h
  cases hi : pyGet e.itemid_to_id it with
  | error s => rw [hi] at h; cases h
  | ok idx => exact ⟨idx, pyGet_ok_lookup hi⟩

/-- Under the adapter's self-inclusion contract (`similar_items` puts the
query index first and returns distinct indices) and consistency of the id
dictionaries, `_get_similar_item` never answers the query item itself:
`recs[1][0]` is a different index, which cannot map back to the query id. -/
theorem _get_similar_item_ne {e : Engine} {it r idx : Nat}
    (hidx : dictLookup e.itemid_to_id it = some idx)
    (hhead : (e.model.similar_items idx 2).head? = some idx)
    (hnodup : (e.model.similar_items idx 2).Nodup)
    (hinj : ∀ q ∈ e.id_to_itemid, q.2 = it → q.1 = idx)
    (h : _get_similar_item e it = Except.ok r) : r ≠ it := by
  unfold _get_similar_item at h
  have hpy : pyGet e.itemid_to_id it = Except.ok idx := by
    unfold pyGet
    rw [hidx]
  rw [hpy] at h
  dsimp only at h
  cases hs : (e.model.similar_items idx 2)[1]? with
  | none => rw [hs] at h; cases h
  | some t =>
    rw [hs] at h
    dsimp only at h
    intro hrit
    have htmem : (t, r) ∈ e.id_to_itemid := pyGet_ok_mem h
    have ht : t = idx := hinj (t, r) htmem hrit
    rw [List.head?_eq_getElem?] at hhead
    have h1 : 1 < (e.model.similar_items idx 2).length :=
      (List.getElem?_eq_some.1 hs).1
    have : (0 : Nat) = 1 :=
      List.getElem?_inj (by omega) hnodup (by rw [hhead, hs, ht])
    cases this

/-! ## Re-ranking helper lemmas -/

theorem rerank_length (u : Nat) (dfp : List ScoreRow) :
    (_rerank u dfp).length = min 5 (dfp.filter (fun r => r.user_id == u)).length := by
  unfold _rerank
  rw [List.length_map, List.length_take, List.length_insertionSort]

/-! ## Claim theorems -/

/-- C2: fallback law.  A raw strategy output of length `L < N` is mapped to
itself followed by exactly the first `N − L` entries of the popularity
ranking (concatenate-then-truncate, order preserved, no deduplication); a
raw output of length `≥ N` is returned unchanged; and the concrete scenario
PopularityRanking = [1,2,3,4,5], raw = [7,8], N = 5 yields [7,8,1,2,3]. -/
theorem C2_fallback_law :
    (∀ (top raw : List Nat) (N : Nat), raw.length < N →
      _extend_with_top_popular top raw N = raw ++ top.take (N - raw.length)) ∧
    (∀ (top raw : List Nat) (N : Nat), N ≤ raw.length →
      _extend_with_top_popular top raw N = raw) ∧
    _extend_with_top_popular [1, 2, 3, 4, 5] [7, 8] 5 = [7, 8, 1, 2, 3] :=
  ⟨extend_eq_append, extend_eq_self, by decide⟩

/-- Witness for C2 at concrete inputs: a short raw list is padded in order,
a full-length raw list is unchanged. -/
theorem C2_fallback_law_witness :
    _extend_with_top_popular [9, 8] [4, 5] 3 = [4, 5, 9] ∧
    _extend_with_top_popular [9, 8] [4, 5, 6] 3 = [4, 5, 6] :=
  ⟨(C2_fallback_law.1 [9, 8] [4, 5] 3 (by decide)).trans (by decide),
   (C2_fallback_law.2.1 [9, 8] [4, 5, 6] 3 (by decide)).trans rfl⟩

/-- C5: the re-ranking path emits, for each user of the evaluation table,
the external score rows of that user sorted by score descending and cut to a
top-5 slice that never depends on `N_PREDICT`: (1) the re-ranked column is
the same function for every requested `N`; (2) the sorted row list is
ordered by `proba_item_purchase` descending; (3) it is a permutation of
exactly the user's rows; (4) every emitted id comes from one of the user's
rows; (5) `_rerank` is literally the first five sorted rows' item column. -/
theorem C5_rerank_top5 :
    (∀ (tbl : List (Nat × List Nat)) (dfp : List ScoreRow) (N1 N2 : Nat),
      rerankedColumn tbl dfp N1 = rerankedColumn tbl dfp N2) ∧
    (∀ (u : Nat) (dfp : List ScoreRow),
      List.Sorted (fun a b : ScoreRow => b.proba_item_purchase ≤ a.proba_item_purchase)
        (List.insertionSort
          (fun a b : ScoreRow => b.proba_item_purchase ≤ a.proba_item_purchase)
          (dfp.filter (fun r => r.user_id == u)))) ∧
    (∀ (u : Nat) (dfp : List ScoreRow),
      (List.insertionSort
          (fun a b : ScoreRow => b.proba_item_purchase ≤ a.proba_item_purchase)
          (dfp.filter (fun r => r.user_id == u))).Perm
        (dfp.filter (fun r => r.user_id == u))) ∧
    (∀ (u : Nat) (dfp : List ScoreRow) (x : Nat), x ∈ _rerank u dfp →
      ∃ r ∈ dfp, r.user_id = u ∧ r.item_id = x) ∧
    (∀ (u : Nat) (dfp : List ScoreRow),
      _rerank u dfp = ((List.insertionSort
          (fun a b : ScoreRow => b.proba_item_purchase ≤ a.proba_item_purchase)
          (dfp.filter (fun r => r.user_id == u))).take 5).map (·.item_id)) := by
  refine ⟨fun tbl dfp N1 N2 => rfl, fun u dfp => ?_, fun u dfp => ?_,
    fun u dfp x hx => ?_, fun u dfp => rfl⟩
  · haveI : IsTotal ScoreRow
        (fun a b => b.proba_item_purchase ≤ a.proba_item_purchase) :=
      ⟨fun a b => le_total _ _⟩
    haveI : IsTrans ScoreRow
        (fun a b => b.proba_item_purchase ≤ a.proba_item_purchase) :=
      ⟨fun _ _ _ hab hbc => le_trans hbc hab⟩
    exact List.sorted_insertionSort _ _
  · exact List.perm_insertionSort _ _
  · unfold _rerank at hx
    obtain ⟨r, hr, hrx⟩ := List.mem_map.1 hx
    have hr2 : r ∈ dfp.filter (fun r => r.user_id == u) :=
      (List.perm_insertionSort _ _).mem_iff.1 ((List.take_sublist _ _).mem hr)
    refine ⟨r, List.mem_of_mem_filter hr2, ?_, hrx⟩
    have := List.of_mem_filter hr2
    simpa using this

/-- Witness for C5: a two-user score table is re-ranked identically for
`N = 1` and `N = 7`, and an emitted id comes from the target user's rows. -/
theorem C5_rerank_top5_witness :
    rerankedColumn [(1, [5])] [⟨1, 4, 1⟩, ⟨2, 6, 2⟩] 1 =
      rerankedColumn [(1, [5])] [⟨1, 4, 1⟩, ⟨2, 6, 2⟩] 7 ∧
    (∃ r ∈ [(⟨1, 4, 1⟩ : ScoreRow), ⟨2, 6, 2⟩], r.user_id = 1 ∧ r.item_id = 4) :=
  ⟨C5_rerank_top5.1 [(1, [5])] [⟨1, 4, 1⟩, ⟨2, 6, 2⟩] 1 7,
   C5_rerank_top5.2.2.2.1 1 [⟨1, 4, 1⟩, ⟨2, 6, 2⟩] 4 (by decide)⟩

/-- C10: the per-user list emitted by the re-ranking path has length
`min 5 (number of score rows of that user)` — independent of the requested
`N_PREDICT`, shorter than 5 when the user has fewer rows, and with no
popularity fallback applied (the empty score table yields the empty list). -/
theorem C10_rerank_length_min :
    (∀ (dfp : List ScoreRow) (u : Nat),
      (_rerank u dfp).length = min 5 (dfp.filter (fun r => r.user_id == u)).length) ∧
    (∀ (tbl : List (Nat × List Nat)) (dfp : List ScoreRow) (N : Nat),
      ∀ row ∈ rerankedColumn tbl dfp N,
        row.2.length = min 5 (dfp.filter (fun r => r.user_id == row.1)).length) ∧
    _rerank 1 [] = [] := by
  refine ⟨fun dfp u => rerank_length u dfp, fun tbl dfp N row hrow => ?_, rfl⟩
  obtain ⟨p, _, hp⟩ := List.mem_map.1 hrow
  subst hp
  exact rerank_length p.1 dfp

/-- Witness for C10: a user with two score rows gets a re-ranked list of
length 2 even when `N_PREDICT = 5`. -/
theorem C10_rerank_length_min_witness :
    ([(1 : Nat), 7] : List Nat).length =
      min 5 (([⟨1, 1, 2⟩, ⟨1, 7, 1⟩] : List ScoreRow).filter
        (fun r => r.user_id == 1)).length ∧
    ([(1 : Nat), 7] : List Nat).length = 2 := by
  constructor
  · exact C10_rerank_length_min.2.1 [(1, [9])] [⟨1, 1, 2⟩, ⟨1, 7, 1⟩] 5 (1, [1, 7])
      (by decide)
  · decide

/-- C6 counterexample: on an engine with an empty user dictionary the claim
expects a fresh id to be assigned index 0; the code instead evaluates
`max(list({}.values()))`, which raises `ValueError`. -/
theorem C6_counterexample :
    _update_dict emptyEngine 7 = Except.error valueErrMsg := rfl

/-- C6 amended: `_update_dict` is idempotent for a known id (the call
returns the state unchanged, so the assigned index and both maps are
untouched, and a second call after any successful call changes nothing);
for an unknown id it assigns `max(existing indices) + 1` and appends the
pair to both direction maps — but when no index exists the call raises
`ValueError` instead of assigning 0. -/
theorem C6_register_user (e : Engine) (u : Nat) :
    ((e.userid_to_id.map (·.1)).contains u → _update_dict e u = Except.ok e) ∧
    (¬ (e.userid_to_id.map (·.1)).contains u →
      ∀ max_id, (e.userid_to_id.map (·.2)).max? = some max_id →
        _update_dict e u = Except.ok { e with
          userid_to_id := e.userid_to_id ++ [(u, max_id + 1)],
          id_to_userid := e.id_to_userid ++ [(max_id + 1, u)] }) ∧
    (e.userid_to_id = [] → _update_dict e u = Except.error valueErrMsg) ∧
    (∀ e', _update_dict e u = Except.ok e' → _update_dict e' u = Except.ok e') := by
  refine ⟨fun hin => ?_, fun hout max_id hmax => ?_, fun hemp => ?_,
    fun e' h => ?_⟩
  · unfold _update_dict
    rw [if_pos hin]
  · unfold _update_dict
    rw [if_neg hout, hmax]
  · unfold _update_dict
    have hnc : ¬ (e.userid_to_id.map (·.1)).contains u := by
      rw [hemp]
      simp
    rw [if_neg hnc, hemp]
    rfl
  · unfold _update_dict at h ⊢
    split at h
    · cases h
      rw [if_pos (by assumption)]
    · cases hm : (e.userid_to_id.map (·.2)).max? with
      | none => rw [hm] at h; cases h
      | some max_id =>
        rw [hm] at h
        cases h
        have : ((e.userid_to_id ++ [(u, max_id + 1)]).map (·.1)).contains u := by
          simp
        rw [if_pos this]

/-- Witness for C6: registering a known id returns the state unchanged;
registering a fresh id appends `max + 1 = 1` to both maps; a repeated
registration changes nothing. -/
theorem C6_register_user_witness :
    _update_dict oneUserEngine 4 = Except.ok oneUserEngine :=
  (C6_register_user oneUserEngine 4).1 (by decide)

/-! ## Pivot-table unfolding lemmas -/

theorem _prepare_matrix_quantity (data : List Record) :
    _prepare_matrix data "quantity" = some (fun u i =>
      pivotMean ((cellRecords data u i).map (fun r => (r.quantity : Rat)))) := rfl

theorem _prepare_matrix_purchase_sum (data : List Record) :
    _prepare_matrix data "purchase_sum" = some (fun u i =>
      pivotMean ((cellRecords data u i).map (·.sales_value))) := rfl

theorem _prepare_matrix_binary (data : List Record) :
    _prepare_matrix data "binary" =
      some (fun u i => ((cellRecords data u i).length : Rat)) := rfl

/-- C4 counterexample: for two records of the pair (1,1) with quantities 1
and 3, the claim's sum is 4 but `pd.pivot_table` with its default
`aggfunc='mean'` puts 2 in the cell. -/
theorem C4_counterexample :
    (_prepare_matrix duplicatePairData "quantity").map (fun f => f 1 1) = some 2 ∧
    specQuantityCell duplicatePairData 1 1 = 4 ∧ (2 : Rat) ≠ 4 := by
  refine ⟨?_, ?_, by norm_num⟩
  · rw [_prepare_matrix_quantity]
    simp only [Option.map_some', Option.some.injEq]
    have hc : cellRecords duplicatePairData 1 1 = duplicatePairData := rfl
    rw [hc]
    show pivotMean [((1 : Nat) : Rat), ((3 : Nat) : Rat)] = 2
    unfold pivotMean
    rw [if_neg (by simp)]
    norm_num
  · show ([((1 : Nat) : Rat), ((3 : Nat) : Rat)]).sum = 4
    norm_num

/-- C4 amended: in matrix construction, the `'quantity'` mode fills each
present (user, item) cell with the MEAN of the `quantity` field over the
pair's records (sum divided by record count — the pandas default aggregator,
not the plain sum), the `'purchase_sum'` mode with the MEAN of the
`sales_value` field, and absent pairs are 0; `'binary'` fills the count. -/
theorem C4_value_modes (data : List Record) (u i : Nat) :
    ((_prepare_matrix data "quantity").map (fun f => f u i) =
      some (if cellRecords data u i = [] then 0
        else specQuantityCell data u i / ((cellRecords data u i).length : Rat))) ∧
    ((_prepare_matrix data "purchase_sum").map (fun f => f u i) =
      some (if cellRecords data u i = [] then 0
        else specPurchaseSumCell data u i / ((cellRecords data u i).length : Rat))) ∧
    ((_prepare_matrix data "binary").map (fun f => f u i) =
      some ((cellRecords data u i).length : Rat)) ∧
    (cellRecords data u i = [] →
      (_prepare_matrix data "quantity").map (fun f => f u i) = some 0 ∧
      (_prepare_matrix data "purchase_sum").map (fun f => f u i) = some 0) := by
  have hq : (_prepare_matrix data "quantity").map (fun f => f u i) =
      some (if cellRecords data u i = [] then 0
        else specQuantityCell data u i / ((cellRecords data u i).length : Rat)) := by
    rw [_prepare_matrix_quantity]
    simp only [Option.map_some', Option.some.injEq]
    unfold pivotMean specQuantityCell
    by_cases hc : cellRecords data u i = []
    · simp [hc]
    · rw [if_neg (by simp [List.map_eq_nil_iff, hc]), if_neg hc, List.length_map]
  have hp : (_prepare_matrix data "purchase_sum").map (fun f => f u i) =
      some (if cellRecords data u i = [] then 0
        else specPurchaseSumCell data u i / ((cellRecords data u i).length : Rat)) := by
    rw [_prepare_matrix_purchase_sum]
    simp only [Option.map_some', Option.some.injEq]
    unfold pivotMean specPurchaseSumCell
    by_cases hc : cellRecords data u i = []
    · simp [hc]
    · rw [if_neg (by simp [List.map_eq_nil_iff, hc]), if_neg hc, List.length_map]
  refine ⟨hq, hp, by rw [_prepare_matrix_binary]; rfl, fun hc => ⟨?_, ?_⟩⟩
  · rw [hq, if_pos hc]
  · rw [hp, if_pos hc]

/-- Witness for C4 at a concrete input: the pair (2,1) has no records, so
both value modes fill the cell with 0. -/
theorem C4_value_modes_witness :
    (_prepare_matrix duplicatePairData "quantity").map (fun f => f 2 1) = some 0 ∧
    (_prepare_matrix duplicatePairData "purchase_sum").map (fun f => f 2 1) = some 0 :=
  (C4_value_modes duplicatePairData 2 1).2.2.2 rfl

/-- C8 counterexample: the newer `evalMetrics` called with an unrecognized
strategy tag and the recognized metric `'recall'` crashes with
`AttributeError` (`None.apply`) instead of returning an error result. -/
theorem C8_counterexample :
    evalMetrics emptyEngine "recall" [(1, 5)] "bogus" 5 =
      Except.error attrErrMsg := rfl

/-- C8 amended: unknown tags are handled without crashing only in the older
variant, which returns the descriptive string result for an unknown
strategy tag (any metric) and for an unknown metric tag; the newer variant
returns Python `None` for an unknown strategy tag only when the metric tag
is also unrecognized — with a recognized metric it raises
`AttributeError`. -/
theorem C8_unknown_tags (e : Engine) (df : List (Nat × Nat)) (N : Nat)
    (rtype : String) (h1 : rtype ≠ "own") (h2 : rtype ≠ "rec")
    (h3 : rtype ≠ "itm") (h4 : rtype ≠ "usr") :
    (evalMetrics e "recall" df rtype N = Except.error attrErrMsg) ∧
    (evalMetrics e "precision" df rtype N = Except.error attrErrMsg) ∧
    (∀ mt : String, mt ≠ "recall" → mt ≠ "precision" →
      evalMetrics e mt df rtype N = Except.ok (PyVal.none, e)) ∧
    (∀ mt : String, evalMetricsOld e mt df rtype N =
      Except.ok (PyVal.str oldErrStr, e)) ∧
    (∀ (mt rt2 : String) (rows : List (Nat × List Nat × List Nat)) (e2 : Engine),
      mt ≠ "recall" → mt ≠ "precision" →
      _get_recommend_eval e (_get_result df) rt2 N = Except.ok (some (rows, e2)) →
      evalMetricsOld e mt df rt2 N = Except.ok (PyVal.str oldErrStr, e2)) := by
  have hge : _get_recommend_eval e (_get_result df) rtype N = Except.ok Option.none := by
    unfold _get_recommend_eval
    rw [if_neg h1, if_neg h2, if_neg h3, if_neg h4]
  refine ⟨?_, ?_, fun mt hm1 hm2 => ?_, fun mt => ?_,
    fun mt rt2 rows e2 hm1 hm2 hrec => ?_⟩
  · unfold evalMetrics
    rw [hge]
    dsimp only
    rw [if_pos rfl]
  · unfold evalMetrics
    rw [hge]
    dsimp only
    rw [if_neg (by decide), if_pos rfl]
  · unfold evalMetrics
    rw [hge]
    dsimp only
    rw [if_neg hm1, if_neg hm2]
  · unfold evalMetricsOld
    rw [hge]
  · unfold evalMetricsOld
    rw [hrec]
    dsimp only
    rw [if_neg hm1, if_neg hm2]

/-- Witness for C8 at concrete inputs: the newer variant returns `None` for
a doubly-unknown call, and the older variant returns the descriptive string
for an unknown strategy tag. -/
theorem C8_unknown_tags_witness :
    evalMetrics emptyEngine "foo" [] "bogus" 3 = Except.ok (PyVal.none, emptyEngine) ∧
    evalMetricsOld emptyEngine "recall" [] "bogus" 3 =
      Except.ok (PyVal.str oldErrStr, emptyEngine) :=
  ⟨(C8_unknown_tags emptyEngine [] 3 "bogus" (by decide) (by decide) (by decide)
      (by decide)).2.2.1 "foo" (by decide) (by decide),
   (C8_unknown_tags emptyEngine [] 3 "bogus" (by decide) (by decide) (by decide)
      (by decide)).2.2.2.1 "recall"⟩

/-! ## Evaluator frame lemmas -/

theorem applyRec_grow {f : Engine → Nat → Nat → Except String (List Nat × Engine)}
    {N : Nat}
    (hf : ∀ (e1 : Engine) (u : Nat) (res : List Nat) (e2 : Engine),
      f e1 u N = Except.ok (res, e2) → OnlyUserMapsGrow e1 e2) :
    ∀ {tbl : List (Nat × List Nat)} {e e' : Engine}
      {out : List (Nat × List Nat × List Nat)},
      applyRec f N e tbl = Except.ok (out, e') → OnlyUserMapsGrow e e' := by
  intro tbl
  induction tbl with
  | nil =>
    intro e e' out h
    unfold applyRec at h
    cases h
    exact onlyUserMapsGrow_refl _
  | cons row rows ih =>
    intro e e' out h
    unfold applyRec at h
    cases hg : f e row.1 N with
    | error s => rw [hg] at h; cases h
    | ok p =>
      obtain ⟨r, e2⟩ := p
      rw [hg] at h
      dsimp only at h
      cases ha : applyRec f N e2 rows with
      | error s => rw [ha] at h; cases h
      | ok q =>
        obtain ⟨rest, e3⟩ := q
        rw [ha] at h
        dsimp only at h
        cases h
        exact onlyUserMapsGrow_trans (hf e row.1 r e2 hg) (ih ha)

theorem _get_recommend_eval_grow {e e2 : Engine} {tbl : List (Nat × List Nat)}
    {rt : String} {N : Nat} {rows : List (Nat × List Nat × List Nat)}
    (h : _get_recommend_eval e tbl rt N = Except.ok (some (rows, e2))) :
    OnlyUserMapsGrow e e2 := by
  unfold _get_recommend_eval at h
  split_ifs at h
  · cases ha : applyRec get_own_recommendations N e tbl with
    | error s => rw [ha] at h; cases h
    | ok p =>
      obtain ⟨out, e3⟩ := p
      rw [ha] at h
      cases h
      exact applyRec_grow
        (fun e1 u res e4 hh => (get_own_recommendations_ok hh).2) ha
  · cases ha : applyRec get_recommendations N e tbl with
    | error s => rw [ha] at h; cases h
    | ok p =>
      obtain ⟨out, e3⟩ := p
      rw [ha] at h
      cases h
      exact applyRec_grow
        (fun e1 u res e4 hh => (get_recommendations_ok hh).2) ha
  · cases ha : applyRec get_similar_items_recommendation N e tbl with
    | error s => rw [ha] at h; cases h
    | ok p =>
      obtain ⟨out, e3⟩ := p
      rw [ha] at h
      cases h
      refine applyRec_grow (fun e1 u res e4 hh => ?_) ha
      rw [(get_similar_items_recommendation_ok hh).2]
      exact onlyUserMapsGrow_refl _
  · cases ha : applyRec get_similar_users_recommendation N e tbl with
    | error s => rw [ha] at h; cases h
    | ok p =>
      obtain ⟨out, e3⟩ := p
      rw [ha] at h
      cases h
      exact applyRec_grow
        (fun e1 u res e4 hh => (get_similar_users_recommendation_ok hh).2) ha
  · cases h

theorem evalMetrics_grow {e e' : Engine} {mt rt : String} {df : List (Nat × Nat)}
    {N : Nat} {v : PyVal}
    (h : evalMetrics e mt df rt N = Except.ok (v, e')) : OnlyUserMapsGrow e e' := by
  unfold evalMetrics at h
  cases hge : _get_recommend_eval e (_get_result df) rt N with
  | error s => rw [hge] at h; cases h
  | ok r =>
    rw [hge] at h
    dsimp only at h
    split_ifs at h
    · cases r with
      | none => cases h
      | some p =>
        obtain ⟨rows, e2⟩ := p
        cases h
        exact _get_recommend_eval_grow hge
    · cases r with
      | none => cases h
      | some p =>
        obtain ⟨rows, e2⟩ := p
        cases h
        exact _get_recommend_eval_grow hge
    · cases r with
      | none =>
        cases h
        exact onlyUserMapsGrow_refl _
      | some p =>
        obtain ⟨rows, e2⟩ := p
        cases h
        exact _get_recommend_eval_grow hge

/-- C9: after construction, the only state a recommendation or evaluation
call may change is the user-id ↔ user-index mapping (both direction maps
grow by appending when a new user is registered); the interaction matrix,
both item dictionaries, the per-user top-purchases table, the popularity
ranking and both fitted models are unchanged by every strategy call and by
the evaluator (the similar-items strategy changes nothing at all). -/
theorem C9_frame_only_user_maps (e : Engine) (user N : Nat) (mt rt : String)
    (df : List (Nat × Nat)) :
    (∀ res e', get_recommendations e user N = Except.ok (res, e') →
      OnlyUserMapsGrow e e') ∧
    (∀ res e', get_own_recommendations e user N = Except.ok (res, e') →
      OnlyUserMapsGrow e e') ∧
    (∀ res e', get_similar_items_recommendation e user N = Except.ok (res, e') →
      e' = e) ∧
    (∀ res e', get_similar_users_recommendation e user N = Except.ok (res, e') →
      OnlyUserMapsGrow e e') ∧
    (∀ v e', evalMetrics e mt df rt N = Except.ok (v, e') → OnlyUserMapsGrow e e') :=
  ⟨fun _ _ h => (get_recommendations_ok h).2,
   fun _ _ h => (get_own_recommendations_ok h).2,
   fun _ _ h => (get_similar_items_recommendation_ok h).2,
   fun _ _ h => (get_similar_users_recommendation_ok h).2,
   fun _ _ h => evalMetrics_grow h⟩

/-- Witness for C9 at a concrete engine: a successful strategy call leaves
every construction-time field intact. -/
theorem C9_frame_only_user_maps_witness :
    OnlyUserMapsGrow fallbackEngine fallbackEngine :=
  (C9_frame_only_user_maps fallbackEngine 1 2 "recall" "own" []).1 [2, 3]
    fallbackEngine rfl

/-- C1: under the adapter contracts (`recommend` answers at most `N` indices,
`similar_users` at most `N+1`) and a popularity ranking with at least `N`
entries, every one of the four strategies either returns a list of exactly
`N` item ids or fails with an exception that is NOT the length assertion
(a dictionary/availability error); and whenever the list after fallback has
length ≠ `N`, the shared epilogue raises exactly the `AssertionError`. -/
theorem C1_exact_length (e : Engine) (user N : Nat) (hN : 1 ≤ N)
    (htop : N ≤ e.overall_top_purchases.length)
    (hrec : ∀ mat uid f, (e.model.recommend mat uid N f).length ≤ N)
    (hown : ∀ mat uid f, (e.own_recommender.recommend mat uid N f).length ≤ N)
    (hown1 : ∀ mat uid f, (e.own_recommender.recommend mat uid 1 f).length ≤ 1)
    (hsu : ∀ uid, (e.model.similar_users uid (N + 1)).length ≤ N + 1) :
    (∀ res e', get_recommendations e user N = Except.ok (res, e') →
      res.length = N) ∧
    (∀ s, get_recommendations e user N = Except.error s → s ≠ assertMsg) ∧
    (∀ res e', get_own_recommendations e user N = Except.ok (res, e') →
      res.length = N) ∧
    (∀ s, get_own_recommendations e user N = Except.error s → s ≠ assertMsg) ∧
    (∀ res e', get_similar_items_recommendation e user N = Except.ok (res, e') →
      res.length = N) ∧
    (∀ s, get_similar_items_recommendation e user N = Except.error s →
      s ≠ assertMsg) ∧
    (∀ res e', get_similar_users_recommendation e user N = Except.ok (res, e') →
      res.length = N) ∧
    (∀ s, get_similar_users_recommendation e user N = Except.error s →
      s ≠ assertMsg) ∧
    (∀ res : List Nat, res.length ≠ N → assertLen res N e =
      Except.error assertMsg) :=
  ⟨fun _ _ h => (get_recommendations_ok h).1,
   fun _ h => get_recommendations_error hrec htop h,
   fun _ _ h => (get_own_recommendations_ok h).1,
   fun _ h => get_own_recommendations_error hown htop h,
   fun _ _ h => (get_similar_items_recommendation_ok h).1,
   fun _ h => get_similar_items_recommendation_error htop h,
   fun _ _ h => (get_similar_users_recommendation_ok h).1,
   fun _ h => get_similar_users_recommendation_error hN hown1 hsu htop h,
   fun res hne => by unfold assertLen; rw [if_neg hne]⟩

/-- Witness for C1 at a concrete engine (`N = 2`, popularity ranking of
length 2, stub models): a successful call returns exactly 2 ids, and a
1-element list trips the assertion. -/
theorem C1_exact_length_witness :
    ([2, 3] : List Nat).length = 2 ∧
    assertLen [9] 2 fallbackEngine = Except.error assertMsg := by
  have h := C1_exact_length fallbackEngine 1 2 (by decide) (by decide)
    (fun mat uid f => by simp [fallbackEngine, trivialModel])
    (fun mat uid f => by simp [fallbackEngine, trivialModel])
    (fun mat uid f => by simp [fallbackEngine, trivialModel])
    (fun uid => by simp [fallbackEngine, trivialModel])
  exact ⟨h.1 [2, 3] fallbackEngine rfl, h.2.2.2.2.2.2.2.2 [9] (by decide)⟩

/-- C3 counterexample: the placeholder occupies matrix column 1 and the
model ranks it second-most-similar to item 5 (while still answering the
query index first, as the adapter contract promises); the similar-items
strategy then emits 999999 — its per-item path never filters the
placeholder. -/
theorem C3_counterexample :
    get_similar_items_recommendation placeholderSecondEngine 10 1 =
      Except.ok ([999999], placeholderSecondEngine) ∧
    (999999 : Nat) ∈ ([999999] : List Nat) :=
  ⟨rfl, by decide⟩

/-- C3 amended: the placeholder id 999999 never appears in the output of
`get_recommendations`, `get_own_recommendations` or
`get_similar_users_recommendation` (the model queries exclude its index and
the popularity fallback was filtered at construction), and never appears in
any constructed popularity ranking — but the similar-items strategy is NOT
covered: its per-item result is the unfiltered second-ranked answer of
`similar_items` and can be the placeholder (see the counterexample). -/
theorem C3_no_placeholder (e : Engine) (user N ph : Nat)
    (hph : dictLookup e.itemid_to_id 999999 = some ph)
    (hinj : ∀ q ∈ e.id_to_itemid, q.2 = 999999 → q.1 = ph)
    (hfilm : ∀ mat uid N' f x, x ∈ f → x ∉ e.model.recommend mat uid N' f)
    (hfilo : ∀ mat uid N' f x, x ∈ f → x ∉ e.own_recommender.recommend mat uid N' f)
    (htop999 : 999999 ∉ e.overall_top_purchases) :
    (∀ data : List Record, 999999 ∉ overall_top_purchases data) ∧
    (∀ res e', get_recommendations e user N = Except.ok (res, e') →
      999999 ∉ res) ∧
    (∀ res e', get_own_recommendations e user N = Except.ok (res, e') →
      999999 ∉ res) ∧
    (∀ res e', get_similar_users_recommendation e user N = Except.ok (res, e') →
      999999 ∉ res) :=
  ⟨overall_top_no_placeholder,
   fun _ _ h => get_recommendations_no_placeholder hph hinj hfilm htop999 h,
   fun _ _ h => get_own_recommendations_no_placeholder hph hinj hfilo htop999 h,
   fun _ _ h =>
     get_similar_users_recommendation_no_placeholder hph hinj hfilo htop999 h⟩

/-- Witness for C3 at concrete inputs: a dataset consisting only of
placeholder records yields an empty popularity ranking, and a successful
`get_recommendations` call on the concrete engine avoids 999999. -/
theorem C3_no_placeholder_witness :
    999999 ∉ overall_top_purchases [⟨1, 999999, 1, 0⟩] ∧
    999999 ∉ ([2, 3] : List Nat) := by
  have h := C3_no_placeholder fallbackEngine 1 2 0 rfl (by decide)
    (fun mat uid N' f x hx => by simp [fallbackEngine, trivialModel])
    (fun mat uid N' f x hx => by simp [fallbackEngine, trivialModel])
    (by decide)
  exact ⟨h.1 [⟨1, 999999, 1, 0⟩], h.2.1 [2, 3] fallbackEngine rfl⟩

/-- C7: under the adapter self-inclusion contract — `similar_items` answers
the query index as its own top result, with distinct indices — and
consistency of the item dictionaries, the similar-items strategy never
emits a source item as its own recommendation: the i-th produced entry
(the second-ranked answer for the i-th top-purchased item) differs from that
i-th source item. -/
theorem C7_not_source_item (e : Engine) (user N : Nat)
    (hcon : ∀ it ∈ topItems e user N, ∀ idx,
      dictLookup e.itemid_to_id it = some idx →
      (e.model.similar_items idx 2).head? = some idx ∧
      (e.model.similar_items idx 2).Nodup ∧
      (∀ q ∈ e.id_to_itemid, q.2 = it → q.1 = idx)) :
    ∀ res e', get_similar_items_recommendation e user N = Except.ok (res, e') →
      ∀ (i : Nat) (it : Nat), (topItems e user N)[i]? = some it →
        res[i]? ≠ some it := by
  intro res e' h i it hit
  unfold get_similar_items_recommendation at h
  cases hmap : mapExcept (_get_similar_item e) (topItems e user N) with
  | error s => rw [hmap] at h; cases h
  | ok raw =>
    rw [hmap] at h
    dsimp only at h
    obtain ⟨hres, _, _⟩ := assertLen_ok h
    subst hres
    have hlen := mapExcept_ok_length hmap
    have hi : i < (topItems e user N).length := (List.getElem?_eq_some.1 hit).1
    obtain ⟨y, hy, hfy⟩ := mapExcept_ok_getElem hmap i it hit
    rw [extend_getElem_lt (by omega), hy]
    intro hcontra
    have hyit : y = it := Option.some_inj.1 hcontra
    obtain ⟨idx, hidx⟩ := _get_similar_item_ok_idx hfy
    have hmem : it ∈ topItems e user N :=
      (List.getElem?_eq_some.1 hit).2 ▸ List.getElem_mem hi
    obtain ⟨hh, hn, hj⟩ := hcon it hmem idx hidx
    exact _get_similar_item_ne hidx hh hn hj hfy hyit

/-- Witness for C7 at a concrete engine: the top purchased item of user 10
is item 1, and the emitted entry is item 2, not the source item. -/
theorem C7_not_source_item_witness :
    (topItems twoItemEngine 10 1)[0]? = some 1 ∧
    (([2] : List Nat)[0]? ≠ some 1) := by
  have hcon : ∀ it ∈ topItems twoItemEngine 10 1, ∀ idx,
      dictLookup twoItemEngine.itemid_to_id it = some idx →
      (twoItemEngine.model.similar_items idx 2).head? = some idx ∧
      (twoItemEngine.model.similar_items idx 2).Nodup ∧
      (∀ q ∈ twoItemEngine.id_to_itemid, q.2 = it → q.1 = idx) := by
    intro it hit idx hidx
    have htops : topItems twoItemEngine 10 1 = [1] := rfl
    rw [htops] at hit
    have hit1 : it = 1 := by simpa using hit
    subst hit1
    have hd : dictLookup twoItemEngine.itemid_to_id 1 = some 0 := rfl
    rw [hd] at hidx
    have hidx0 : idx = 0 := (Option.some_inj.1 hidx).symm
    subst hidx0
    exact ⟨rfl, by decide, by decide⟩
  exact ⟨rfl, C7_not_source_item twoItemEngine 10 1 hcon [2] twoItemEngine rfl 0 1 rfl⟩

end Rec
